import Mathlib

/-!
# Verification of the `cli_portfolio` terminal UI

Shallow embedding of the repository's Go sources (`main.go` and the unnamed
variant source file, called `part 000` below) into Lean, together with proofs
about the navigation state machine, the fetch boundary and the renderer.

The bubbletea widget library types (`progress.Model`, `list.Model`,
`table.Model`, `stopwatch.Model`) are not repository code; they are modelled
by small structures capturing the state the repository reads and writes
(cursor positions, items, the clamped completion percentage).  The spring
animation of the progress widget is abstracted: the percentage is the clamped
target value, over exact rationals.
-/

namespace CliPortfolio

/-- `type githubRepo struct` from main.go: one decoded repository record. -/
structure githubRepo where
  name : String
  description : String
  htmlURL : String
  deriving DecidableEq

/-- `type item struct` from main.go: one entry of the Projects list. -/
structure item where
  title : String
  description : String
  url : String
  deriving DecidableEq

/-- Modelled from the bubbles progress widget: the repository only reads
`Percent()` and writes `Width`; `SetPercent`/`IncrPercent` clamp to `[0,1]`.
The spring animation is abstracted, so `percent` is the clamped target. -/
structure progressModel where
  percent : ℚ
  width : Int
  deriving DecidableEq

/-- `progress.New(progress.WithDefaultGradient())`: starts at percentage 0. -/
def progressNew : progressModel := { percent := 0, width := 40 }

/-- `IncrPercent(v)` adds `v` to the percentage, clamped to `[0,1]`. -/
def progressModel.incrPercentTarget (p : progressModel) (v : ℚ) : progressModel :=
  { p with percent := max 0 (min 1 (p.percent + v)) }

/-- Modelled from the bubbles list widget: the repository reads `Items()`,
`Index()`, `SelectedItem()` and calls `CursorUp`/`CursorDown`/`SetItems`/
`SetSize` (pagination, filtering and the status bar are disabled). -/
structure listModel where
  items : List item
  index : Nat
  width : Int
  height : Int
  deriving DecidableEq

def listModel.cursorUp (l : listModel) : listModel :=
  { l with index := l.index - 1 }

def listModel.cursorDown (l : listModel) : listModel :=
  { l with index := if l.index + 1 < l.items.length then l.index + 1 else l.index }

/-- `SelectedItem()`: the item under the cursor, `none` when out of range
(in Go the subsequent type assertion would then panic). -/
def listModel.selectedItem? (l : listModel) : Option item :=
  l.items[l.index]?

def listModel.setItems (l : listModel) (xs : List item) : listModel :=
  { l with items := xs }

def listModel.setSize (l : listModel) (w h : Int) : listModel :=
  { l with width := w, height := h }

/-- Modelled from the bubbles table widget: rows plus a clamped cursor. -/
structure tableModel where
  columns : List (String × Int)
  rows : List (List String)
  cursor : Nat
  width : Int
  height : Int
  deriving DecidableEq

def tableModel.moveUp (t : tableModel) (n : Nat) : tableModel :=
  { t with cursor := t.cursor - n }

def tableModel.moveDown (t : tableModel) (n : Nat) : tableModel :=
  { t with cursor := min (t.cursor + n) (t.rows.length - 1) }

/-- `initializeSkillsTable` from main.go (styling omitted; it does not change
the table's data). -/
def initSkillsTable : tableModel :=
  { columns := [("Category", 25), ("Skills", 50)]
    rows :=
      [ ["Programming Languages", "Python, JavaScript, TypeScript, Dart, PHP"]
      , ["Mobile Development", "Flutter, React Native"]
      , ["Software Development", "Electron"]
      , ["Web Development", "React, Symfony, VueJS, NextJS, NodeJS"]
      , ["Databases", "MySQL, MongoDB, Microsoft SQL Server"]
      , ["Game Engine", "Unity"] ]
    cursor := 0
    width := 0
    height := 10 }

/-- `type model struct` from main.go. -/
structure model where
  cursor : Int
  sections : List String
  loading : Bool
  progress : progressModel
  page : String
  loaded : Bool
  reposList : listModel
  skillsTable : tableModel
  errorMsg : String
  deriving DecidableEq

/-- `const maxWidth = 80` (main.go). -/
def maxWidth : Int := 80

/-- `const padding = 2`. -/
def padding : Int := 2

/-- `initialModel()` from main.go.  Fields not mentioned in the Go struct
literal (`loading`, `errorMsg`) get Go zero values. -/
def initialModel : model :=
  { cursor := 0
    sections := ["About Me", "Education", "Experience", "Skills", "Projects", "Contact", "Exit"]
    loading := false
    progress := progressNew
    page := "menu"
    loaded := false
    reposList := { items := [], index := 0, width := maxWidth, height := 20 }
    skillsTable := initSkillsTable
    errorMsg := "" }

/-- The messages delivered to `Update` (`tea.KeyMsg`, `tea.WindowSizeMsg`,
`tickMsg`, `repoMsg`, `errMsg`, `openURLMsg`, `progress.FrameMsg`). -/
inductive Msg where
  | keyMsg (s : String)
  | windowSizeMsg (width height : Int)
  | tickMsg
  | repoMsg (repos : List githubRepo)
  | errMsg (e : String)
  | openURLMsg (url : String)
  | frameMsg
  deriving DecidableEq

/-- The `tea.Cmd` values the repository's `Update` can return.  `batch2` is
`tea.Batch` of two commands; widget-internal commands (stopwatch, spring
animation frames, status-message timers) that carry no repository data are
modelled by `none`/`frame`/`statusMessage`. -/
inductive Cmd where
  | none
  | quit
  | tick
  | fetchRepos
  | openURL (url : String)
  | statusMessage (text : String)
  | frame
  | batch2 (a b : Cmd)
  deriving DecidableEq

/-- The fall-through at the bottom of `Update` (main.go lines 338-350): after
the key `switch`, the active page's widget also receives the key message.
With filtering disabled, the list widget moves its cursor on up/k/down/j and
ignores enter; the table widget likewise. -/
def listUpdateKey (l : listModel) (s : String) : listModel :=
  if s = "up" ∨ s = "k" then l.cursorUp
  else if s = "down" ∨ s = "j" then l.cursorDown
  else l

def tableUpdateKey (t : tableModel) (s : String) : tableModel :=
  if s = "up" ∨ s = "k" then t.moveUp 1
  else if s = "down" ∨ s = "j" then t.moveDown 1
  else t

def afterKeySwitchM (m : model) (s : String) : model :=
  if m.page = "Projects" then { m with reposList := listUpdateKey m.reposList s }
  else if m.page = "Skills" then { m with skillsTable := tableUpdateKey m.skillsTable s }
  else m

/-- The item-construction loop of the `repoMsg` case (main.go lines 309-316):
one list entry per repository record, in order. -/
def repoItems (repos : List githubRepo) : List item :=
  repos.map fun r => { title := r.name, description := r.description, url := r.htmlURL }

/-- `func (m model) Update(msg tea.Msg) (tea.Model, tea.Cmd)` from main.go.
`none` models a Go runtime panic: indexing `m.sections[m.cursor]` out of
range, or the type assertion `SelectedItem().(item)` on a nil interface. -/
def model.update (m : model) : Msg → Option (model × Cmd)
  | .keyMsg s =>
    if s = "q" then some (m, Cmd.quit)
    else if s = "up" ∨ s = "k" then
      let m1 :=
        if m.page = "menu" then
          if m.cursor > 0 then { m with cursor := m.cursor - 1 } else m
        else if m.page = "Projects" then { m with reposList := m.reposList.cursorUp }
        else if m.page = "Skills" then { m with skillsTable := m.skillsTable.moveUp 1 }
        else m
      some (afterKeySwitchM m1 s, Cmd.none)
    else if s = "down" ∨ s = "j" then
      let m1 :=
        if m.page = "menu" then
          if m.cursor < (m.sections.length : Int) - 1 then { m with cursor := m.cursor + 1 } else m
        else if m.page = "Projects" then { m with reposList := m.reposList.cursorDown }
        else if m.page = "Skills" then { m with skillsTable := m.skillsTable.moveDown 1 }
        else m
      some (afterKeySwitchM m1 s, Cmd.none)
    else if s = "enter" then
      if m.page = "menu" then
        if h : 0 ≤ m.cursor ∧ m.cursor.toNat < m.sections.length then
          let sec := m.sections.get ⟨m.cursor.toNat, h.2⟩
          if sec = "Exit" then some (m, Cmd.quit)
          else
            let m1 := { m with loading := true, page := sec, loaded := false,
                               progress := progressNew }
            if m1.page = "Projects" then some (m1, Cmd.fetchRepos)
            else some (m1, Cmd.tick)
        else none
      else if m.page = "Projects" ∧ m.loaded = true then
        if 0 < m.reposList.items.length then
          match m.reposList.selectedItem? with
          | none => none
          | some sel =>
            if sel.url ≠ "" then some (m, Cmd.openURL sel.url)
            else some (afterKeySwitchM m s, Cmd.none)
        else some (afterKeySwitchM m s, Cmd.none)
      else some (afterKeySwitchM m s, Cmd.none)
    else if s = "b" then
      let m1 :=
        if m.page ≠ "menu" then { m with page := "menu", cursor := 0, loaded := false } else m
      some (afterKeySwitchM m1 s, Cmd.none)
    else some (afterKeySwitchM m s, Cmd.none)
  | .windowSizeMsg w h =>
    let p0 := { m.progress with width := w - padding * 2 - 4 }
    let p1 := if p0.width > maxWidth then { p0 with width := maxWidth } else p0
    let m1 := { m with progress := p1 }
    let m2 :=
      if m1.page = "Projects" then
        { m1 with reposList := m1.reposList.setSize (w - 4) (h - 2) }
      else m1
    some (m2, Cmd.none)
  | .tickMsg =>
    if m.progress.percent = 1 then
      some ({ m with loading := false, loaded := true }, Cmd.none)
    else
      some ({ m with progress := m.progress.incrPercentTarget 0.25 },
            Cmd.batch2 Cmd.tick Cmd.frame)
  | .repoMsg repos =>
    some ({ m with
              reposList := m.reposList.setItems (repoItems repos),
              loading := false, loaded := true },
          Cmd.statusMessage "Press Enter to open selected project in browser")
  | .errMsg e =>
    some ({ m with errorMsg := e, loading := false, loaded := true }, Cmd.none)
  | .openURLMsg _ => some (m, Cmd.none)
  | .frameMsg => some (m, Cmd.none)

/-- The possible inputs to one run of the `fetchGitHubRepos` closure: either
the transport fails (`http.Get` returns an error), or an HTTP response
arrives with a status code, a status text and a body whose JSON decoding
either fails or yields the repository records. -/
inductive fetchInput where
  | transportError (msg : String)
  | httpResponse (statusCode : Nat) (status : String) (body : Except String (List githubRepo))

/-- `fetchGitHubRepos` from main.go, as a function of the network outcome:
exactly one message is produced. -/
def fetchGitHubRepos : fetchInput → Msg
  | .transportError e => .errMsg e
  | .httpResponse code status body =>
    if code ≠ 200 then .errMsg ("failed to fetch repositories: " ++ status)
    else
      match body with
      | .error e => .errMsg e
      | .ok repos => .repoMsg repos

/-- A fetch input that does not produce repository records. -/
def fetchInput.fails : fetchInput → Bool
  | .transportError _ => true
  | .httpResponse code _ body =>
    code ≠ 200 || (match body with | .error _ => true | .ok _ => false)

/-- The underlying cause strings carried by the transport layer or the JSON
decoder are non-empty (Go's `url.Error` and `json` errors always are). -/
def fetchInput.causeNonempty : fetchInput → Prop
  | .transportError e => e ≠ ""
  | .httpResponse _ _ (.error e) => e ≠ ""
  | .httpResponse _ _ (.ok _) => True

/-! ## The renderer (`View`, main.go lines 355-384)

The lipgloss style objects are process-wide immutable configuration; each
`Render` call and each widget `View()` is a deterministic function of its
argument.  They are abstracted as the fields of `renderers`, passed to `view`
unchanged on every call.  `view` also receives the current wall-clock text
`clock`, so that its independence from the clock can be stated; the body,
translated from main.go, never reads it (main.go's `View` contains no
`time.Now`). -/

structure renderers where
  boldTitle : String → String
  app : String → String
  controls : String → String
  baseTable : String → String
  progressView : progressModel → String
  listView : listModel → String
  tableView : tableModel → String

/-- The menu loop of `View` (main.go lines 363-369). -/
def menuLines (sections : List String) (cursor : Int) : String :=
  String.join (sections.enum.map fun p =>
    (if (p.1 : Int) = cursor then " > " else "   ") ++ p.2 ++ "\n")

/-- `func (m model) getPageContent() string` from main.go. -/
def model.getPageContent (m : model) (R : renderers) : String :=
  if m.page = "About Me" then
    "\nAbout Me:\n" ++
    "I'm a software developer based in France, specializing in software and mobile development but I'm also interested in game development.\n" ++
    "I'm currently pursuing an MBA in development and management. I like to learn new languages and frameworks in my free time.\n" ++
    "I have a work-study contract at Téïcée as a backend developer.\n"
  else if m.page = "Education" then
    "\nEducation:\n" ++
    "2023 - 2025 : Master degree - Fullstack developer\n" ++
    "2022 - 2023 : Bachelor degree - Web developer\n" ++
    "2020 - 2022 : BTEC Higher National Diploma - web and software development\n"
  else if m.page = "Experience" then
    "\nExperience:\n" ++
    "2022 - today : Fullstack Developer at Téïcée\n"
  else if m.page = "Skills" then
    "\nSkills:\n\n" ++ R.baseTable (R.tableView m.skillsTable)
  else if m.page = "Projects" then
    R.listView m.reposList ++
      (if m.loaded = true then "\n\nPress Enter to open the selected project in your browser." else "")
  else if m.page = "Contact" then
    "\nContact:\n" ++
    "Email: milan.hommet@protonmail.com\n" ++
    "LinkedIn: https://www.linkedin.com/in/milan-hommet-840414315/\n"
  else "\nContent for " ++ m.page

/-- `func (m model) View() string` from main.go. -/
def model.view (m : model) (R : renderers) (clock : String) : String :=
  let s0 := R.boldTitle "Welcome to my portfolio - Milan Hommet" ++ "\n\n"
  let s :=
    if m.errorMsg ≠ "" then s0 ++ "Error: " ++ m.errorMsg ++ "\n"
    else if m.page = "menu" then
      s0 ++ menuLines m.sections m.cursor ++
        "\nControls: ↑/k up • ↓/j down • b back • q quit • ENTER select\n"
    else if m.loading = true then
      s0 ++ "Loading...\n\n" ++ "  " ++ R.progressView m.progress ++ "\n"
    else
      s0 ++ m.getPageContent R ++ "\n\n" ++
        R.controls "Controls: ↑/k up • ↓/j down • b back • q quit"
  R.app s

/-! ## The unnamed variant source file (`src/unnamed/part_000`)

Same application with a splash screen, an explicit window size, and a footer
showing the wall clock and a stopwatch.  The stopwatch widget only reacts to
its own internal message types, which are outside the alphabet modelled here,
so the `stopwatch` field is carried unchanged; its elapsed time is a `Nat`.
The `nameArt` ASCII banner is defined in a source file not present under
`src/`; it is abstracted as a renderer constant. -/

/-- `type model struct` from part 000 (lines 99-114). -/
structure model000 where
  cursor : Int
  sections : List String
  loading : Bool
  progress : progressModel
  page : String
  loaded : Bool
  reposList : listModel
  skillsTable : tableModel
  errorMsg : String
  width : Int
  height : Int
  showSplash : Bool
  splashTimer : Int
  stopwatch : Nat
  deriving DecidableEq

/-- `const maxWidth = 9999` (part 000). -/
def maxWidth000 : Int := 9999

/-- `initialModel()` from part 000 (lines 116-143). -/
def initialModel000 : model000 :=
  { cursor := 0
    sections := ["About Me", "Education", "Experience", "Skills", "Projects", "Contact", "Exit"]
    loading := false
    progress := progressNew
    page := "menu"
    loaded := false
    reposList := { items := [], index := 0, width := maxWidth000, height := 20 }
    skillsTable := initSkillsTable
    errorMsg := ""
    width := maxWidth000
    height := 24
    showSplash := true
    splashTimer := 20
    stopwatch := 0 }

def afterKeySwitchM000 (m : model000) (s : String) : model000 :=
  if m.page = "Projects" then { m with reposList := listUpdateKey m.reposList s }
  else if m.page = "Skills" then { m with skillsTable := tableUpdateKey m.skillsTable s }
  else m

/-- `func (m model) Update(...)` from part 000 (lines 245-409).  While
`showSplash` is set, any key dismisses the splash (lines 251-273) — the key
`switch`, including the `"q"` case, is never reached.  The stopwatch update
at the top is the identity on this message alphabet; its command and the
final clock `tea.Tick` are modelled by `Cmd.none` and `Cmd.tick`. -/
def model000.update (m : model000) : Msg → Option (model000 × Cmd)
  | .keyMsg s =>
    if m.showSplash then some ({ m with showSplash := false }, Cmd.none)
    else if s = "q" then some (m, Cmd.quit)
    else if s = "up" ∨ s = "k" then
      let m1 :=
        if m.page = "menu" then
          if m.cursor > 0 then { m with cursor := m.cursor - 1 } else m
        else if m.page = "Projects" then { m with reposList := m.reposList.cursorUp }
        else if m.page = "Skills" then { m with skillsTable := m.skillsTable.moveUp 1 }
        else m
      some (afterKeySwitchM000 m1 s,
            if m1.page = "Projects" then Cmd.batch2 Cmd.none Cmd.none
            else if m1.page = "Skills" then Cmd.none
            else Cmd.batch2 Cmd.none Cmd.tick)
    else if s = "down" ∨ s = "j" then
      let m1 :=
        if m.page = "menu" then
          if m.cursor < (m.sections.length : Int) - 1 then { m with cursor := m.cursor + 1 } else m
        else if m.page = "Projects" then { m with reposList := m.reposList.cursorDown }
        else if m.page = "Skills" then { m with skillsTable := m.skillsTable.moveDown 1 }
        else m
      some (afterKeySwitchM000 m1 s,
            if m1.page = "Projects" then Cmd.batch2 Cmd.none Cmd.none
            else if m1.page = "Skills" then Cmd.none
            else Cmd.batch2 Cmd.none Cmd.tick)
    else if s = "enter" then
      if m.page = "menu" then
        if h : 0 ≤ m.cursor ∧ m.cursor.toNat < m.sections.length then
          let sec := m.sections.get ⟨m.cursor.toNat, h.2⟩
          if sec = "Exit" then some (m, Cmd.quit)
          else
            let m1 := { m with loading := true, page := sec, loaded := false,
                               progress := progressNew }
            if m1.page = "Projects" then some (m1, Cmd.fetchRepos)
            else some (m1, Cmd.tick)
        else none
      else if m.page = "Projects" ∧ m.loaded = true then
        if 0 < m.reposList.items.length then
          match m.reposList.selectedItem? with
          | none => none
          | some sel =>
            if sel.url ≠ "" then some (m, Cmd.openURL sel.url)
            else some (afterKeySwitchM000 m s,
                       if m.page = "Projects" then Cmd.batch2 Cmd.none Cmd.none
                       else Cmd.batch2 Cmd.none Cmd.tick)
        else some (afterKeySwitchM000 m s,
                   if m.page = "Projects" then Cmd.batch2 Cmd.none Cmd.none
                   else Cmd.batch2 Cmd.none Cmd.tick)
      else some (afterKeySwitchM000 m s,
                 if m.page = "Projects" then Cmd.batch2 Cmd.none Cmd.none
                 else if m.page = "Skills" then Cmd.none
                 else Cmd.batch2 Cmd.none Cmd.tick)
    else if s = "b" then
      let m1 :=
        if m.page ≠ "menu" then { m with page := "menu", cursor := 0, loaded := false } else m
      some (afterKeySwitchM000 m1 s,
            if m1.page = "Projects" then Cmd.batch2 Cmd.none Cmd.none
            else if m1.page = "Skills" then Cmd.none
            else Cmd.batch2 Cmd.none Cmd.tick)
    else
      some (afterKeySwitchM000 m s,
            if m.page = "Projects" then Cmd.batch2 Cmd.none Cmd.none
            else if m.page = "Skills" then Cmd.none
            else Cmd.batch2 Cmd.none Cmd.tick)
  | .windowSizeMsg w h =>
    if m.showSplash then some ({ m with width := w, height := h }, Cmd.none)
    else
      let p := { m.progress with width := w - padding * 2 - 4 }
      let p1 := if p.width > maxWidth000 then { p with width := maxWidth000 } else p
      let m1 := { m with width := w, height := h, progress := p1 }
      let m2 :=
        if m1.page = "Projects" then
          { m1 with reposList := m1.reposList.setSize (w - 4) (h - 2 - 10) }
        else m1
      let m3 :=
        if m2.page = "Skills" then
          { m2 with skillsTable := { m2.skillsTable with width := w - 20, height := h - 15 } }
        else m2
      some (m3, Cmd.none)
  | .tickMsg =>
    if m.showSplash then
      let m1 := { m with splashTimer := m.splashTimer - 1 }
      if m1.splashTimer ≤ 0 then some ({ m1 with showSplash := false }, Cmd.none)
      else some (m1, Cmd.tick)
    else if m.progress.percent = 1 then
      some ({ m with loading := false, loaded := true }, Cmd.none)
    else
      some ({ m with progress := m.progress.incrPercentTarget 0.25 },
            Cmd.batch2 Cmd.tick Cmd.frame)
  | .repoMsg repos =>
    if m.showSplash then some (m, Cmd.batch2 Cmd.none Cmd.none)
    else
      some ({ m with
                reposList := m.reposList.setItems (repoItems repos),
                loading := false, loaded := true },
            Cmd.statusMessage "Press Enter to open selected project in browser")
  | .errMsg e =>
    if m.showSplash then some (m, Cmd.batch2 Cmd.none Cmd.none)
    else some ({ m with errorMsg := e, loading := false, loaded := true }, Cmd.none)
  | .openURLMsg _ =>
    if m.showSplash then some (m, Cmd.batch2 Cmd.none Cmd.none)
    else some (m, Cmd.none)
  | .frameMsg =>
    if m.showSplash then some (m, Cmd.batch2 Cmd.none Cmd.none)
    else some (m, Cmd.none)

/-- The lipgloss style configuration of part 000's `View` (lines 411-580),
abstracted as deterministic string functions, plus the `nameArt` banner
(defined in a repository file not present under `src/`) and the widget
views. -/
structure renderers000 where
  splashMain : String → String
  splashContainer : String → String
  splashName : String → String
  splashTitle : String → String
  nameArt : String
  headerContainer : String → String
  nameHdr : String → String
  jobHdr : String → String
  headerSpacer : String
  footerContainer : String → String
  clockStyle : String → String
  timerStyle : String → String
  footerSpacer : String
  mainBox : String → String
  innerBox : String → String
  pageTitle : String → String
  menuStyle : String → String
  controlsMenu : String → String
  loadingStyle : String → String
  controlsPage : String → String
  contentStyle : String → String
  baseTable : String → String
  progressView : progressModel → String
  listView : listModel → String
  tableView : tableModel → String
  stopwatchView : Nat → String

/-- `func (m model) getPageContent() string` from part 000 (lines 582-617). -/
def model000.getPageContent (m : model000) (R : renderers000) : String :=
  if m.page = "About Me" then
    R.contentStyle ("\nAbout Me:\n" ++
      "I'm a software developer based in France, specializing in software and mobile development but I'm also interested in game development.\n" ++
      "I'm currently pursuing an MBA in development and management. I like to learn new languages and frameworks in my free time.\n" ++
      "I have a work-study contract at Téïcée as a backend developer.\n")
  else if m.page = "Education" then
    R.contentStyle ("\nEducation:\n" ++
      "2023 - 2025 : Master degree - Fullstack developer\n" ++
      "2022 - 2023 : Bachelor degree - Web developer\n" ++
      "2020 - 2022 : BTEC Higher National Diploma - web and software development\n")
  else if m.page = "Experience" then
    R.contentStyle ("\nExperience:\n" ++
      "2022 - today : Fullstack Developer at Téïcée\n")
  else if m.page = "Skills" then
    R.contentStyle ("\nSkills:\n\n" ++ R.baseTable (R.tableView m.skillsTable))
  else if m.page = "Projects" then
    R.listView m.reposList ++
      (if m.loaded = true then "\n\nPress Enter to open the selected project in your browser." else "")
  else if m.page = "Contact" then
    R.contentStyle ("\nContact:\n" ++
      "Email: milan.hommet@protonmail.com\n" ++
      "LinkedIn: https://www.linkedin.com/in/milan-hommet-840414315/\n")
  else R.contentStyle ("\nContent for " ++ m.page)

/-- `func (m model) View() string` from part 000 (lines 411-580).  Unlike the
main.go renderer, the footer reads the wall clock: line 515 renders
`time.Now().Format("15:04:05")`, passed in here as `clock`. -/
def model000.view (m : model000) (R : renderers000) (clock : String) : String :=
  if m.showSplash then
    R.splashMain (R.splashContainer
      (R.splashName R.nameArt ++ "\n" ++
       R.splashTitle "Milan Hommet - Fullstack Developer"))
  else
    let header := R.headerContainer
      (R.nameHdr "Milan Hommet" ++ R.headerSpacer ++ R.jobHdr "Fullstack Developer")
    let footer := R.footerContainer
      (R.clockStyle ("🕒 " ++ clock) ++ R.footerSpacer ++
       R.timerStyle ("⏱ " ++ R.stopwatchView m.stopwatch))
    let inner0 := R.pageTitle "Welcome to my portfolio" ++ "\n\n"
    let content :=
      if m.errorMsg ≠ "" then "Error: " ++ m.errorMsg ++ "\n"
      else if m.page = "menu" then
        R.menuStyle (menuLines m.sections m.cursor) ++ "\n" ++
          R.controlsMenu "Controls: ↑/k up • ↓/j down • b back • q quit • ENTER select"
      else if m.loading = true then
        R.loadingStyle "Loading..." ++ "\n\n" ++ R.progressView m.progress ++ "\n"
      else
        m.getPageContent R ++ "\n\n" ++
          R.controlsPage "Controls: ↑/k up • ↓/j down • b back • q quit"
    header ++ "\n" ++ R.mainBox (R.innerBox (inner0 ++ content)) ++ "\n" ++ footer

/-! ## Helper definitions and lemmas -/

/-- The four "move" key events (`up`/`k`/`down`/`j`). -/
def isMoveKey (s : String) : Prop :=
  s = "up" ∨ s = "k" ∨ s = "down" ∨ s = "j"

instance (s : String) : Decidable (isMoveKey s) :=
  inferInstanceAs (Decidable (s = "up" ∨ s = "k" ∨ s = "down" ∨ s = "j"))

/-- Apply a sequence of key events through `Update`, propagating a panic. -/
def applyKeys (m : model) : List String → Option model
  | [] => some m
  | s :: rest =>
    match m.update (.keyMsg s) with
    | some (m1, _) => applyKeys m1 rest
    | none => none

theorem moveKey_step (m : model) (s : String) (hs : isMoveKey s) (hp : m.page = "menu")
    (h0 : 0 ≤ m.cursor) (h1 : m.cursor < (m.sections.length : Int)) :
    ∃ m', m.update (.keyMsg s) = some (m', Cmd.none) ∧ m'.page = "menu" ∧
      m'.sections = m.sections ∧ 0 ≤ m'.cursor ∧ m'.cursor < (m.sections.length : Int) := by
  rcases hs with rfl | rfl | rfl | rfl
  · by_cases hc : m.cursor > 0
    · refine ⟨{ m with cursor := m.cursor - 1 }, ?_, hp, rfl, by simp; omega, by simp; omega⟩
      simp [model.update, hp, hc, afterKeySwitchM]
    · refine ⟨m, ?_, hp, rfl, h0, h1⟩
      simp [model.update, hp, hc, afterKeySwitchM]
  · by_cases hc : m.cursor > 0
    · refine ⟨{ m with cursor := m.cursor - 1 }, ?_, hp, rfl, by simp; omega, by simp; omega⟩
      simp [model.update, hp, hc, afterKeySwitchM]
    · refine ⟨m, ?_, hp, rfl, h0, h1⟩
      simp [model.update, hp, hc, afterKeySwitchM]
  · by_cases hc : m.cursor < (m.sections.length : Int) - 1
    · refine ⟨{ m with cursor := m.cursor + 1 }, ?_, hp, rfl, by simp; omega, by simp; omega⟩
      simp [model.update, hp, hc, afterKeySwitchM]
    · refine ⟨m, ?_, hp, rfl, h0, h1⟩
      simp [model.update, hp, hc, afterKeySwitchM]
  · by_cases hc : m.cursor < (m.sections.length : Int) - 1
    · refine ⟨{ m with cursor := m.cursor + 1 }, ?_, hp, rfl, by simp; omega, by simp; omega⟩
      simp [model.update, hp, hc, afterKeySwitchM]
    · refine ⟨m, ?_, hp, rfl, h0, h1⟩
      simp [model.update, hp, hc, afterKeySwitchM]

/-- Every `Update` branch either keeps both loading flags, or ends with
`loaded = false`, or ends with `loading = false`. -/
theorem update_flags (m m' : model) (msg : Msg) (c : Cmd)
    (h : m.update msg = some (m', c)) :
    (m'.loading = m.loading ∧ m'.loaded = m.loaded) ∨ m'.loaded = false ∨ m'.loading = false := by
  cases msg with
  | keyMsg s =>
    simp only [model.update] at h
    repeat' split at h
    all_goals simp only [Option.some.injEq, Prod.mk.injEq, reduceCtorEq] at h
    all_goals (obtain ⟨rfl, rfl⟩ := h)
    all_goals try (left; exact ⟨rfl, rfl⟩)
    all_goals try (right; left; rfl)
    all_goals (left; constructor <;> (unfold afterKeySwitchM; split_ifs <;> rfl))
  | windowSizeMsg w hh =>
    simp only [model.update] at h
    repeat' split at h
    all_goals simp only [Option.some.injEq, Prod.mk.injEq] at h
    all_goals obtain ⟨rfl, rfl⟩ := h
    all_goals exact Or.inl ⟨rfl, rfl⟩
  | tickMsg =>
    simp only [model.update] at h
    split at h <;> (simp only [Option.some.injEq, Prod.mk.injEq] at h; obtain ⟨rfl, rfl⟩ := h)
    · right; right; rfl
    · left; exact ⟨rfl, rfl⟩
  | repoMsg repos =>
    simp only [model.update] at h
    simp only [Option.some.injEq, Prod.mk.injEq] at h
    obtain ⟨rfl, rfl⟩ := h
    right; right; rfl
  | errMsg e =>
    simp only [model.update] at h
    simp only [Option.some.injEq, Prod.mk.injEq] at h
    obtain ⟨rfl, rfl⟩ := h
    right; right; rfl
  | openURLMsg u =>
    simp only [model.update] at h
    simp only [Option.some.injEq, Prod.mk.injEq] at h
    obtain ⟨rfl, rfl⟩ := h
    left; exact ⟨rfl, rfl⟩
  | frameMsg =>
    simp only [model.update] at h
    simp only [Option.some.injEq, Prod.mk.injEq] at h
    obtain ⟨rfl, rfl⟩ := h
    left; exact ⟨rfl, rfl⟩

/-- The state transformation of the `tickMsg` case of `Update`. -/
def tickStep (m : model) : model :=
  if m.progress.percent = 1 then { m with loading := false, loaded := true }
  else { m with progress := m.progress.incrPercentTarget 0.25 }

theorem update_tick_eq (m : model) :
    m.update .tickMsg = some (tickStep m,
      if m.progress.percent = 1 then Cmd.none else Cmd.batch2 Cmd.tick Cmd.frame) := by
  simp only [model.update, tickStep]
  split <;> rfl

/-- The state after `n` timer ticks. -/
def tickIter (m : model) : Nat → model
  | 0 => m
  | n + 1 => tickStep (tickIter m n)

theorem tickIter_percent (m : model) (h0 : m.progress.percent = 0) :
    ∀ n, (tickIter m n).progress.percent = min 1 ((n : ℚ) / 4) := by
  intro n
  induction n with
  | zero => simp [tickIter, h0]
  | succ k ih =>
    rcases Nat.lt_or_ge k 4 with hk | hk
    · have hx : ((k : ℚ)) / 4 < 1 := by
        rw [div_lt_one (by norm_num)]
        exact_mod_cast hk
      have hmin : min 1 ((k : ℚ) / 4) = (k : ℚ) / 4 := min_eq_right hx.le
      have hne : (tickIter m k).progress.percent ≠ 1 := by
        rw [ih, hmin]
        intro hcontra
        rw [hcontra] at hx
        exact lt_irrefl 1 hx
      show (tickStep (tickIter m k)).progress.percent = _
      rw [tickStep, if_neg hne]
      simp only [progressModel.incrPercentTarget, ih, hmin]
      have hkk : ((k : ℚ) + 1) / 4 = (k : ℚ) / 4 + 0.25 := by ring
      have hnn : (0 : ℚ) ≤ min 1 ((k : ℚ) / 4 + 0.25) :=
        le_min (by norm_num) (by positivity)
      push_cast
      rw [hkk, max_eq_right hnn]
    · have hone : (tickIter m k).progress.percent = 1 := by
        rw [ih]
        refine min_eq_left ?_
        rw [le_div_iff₀ (by norm_num)]
        norm_num
        exact_mod_cast hk
      show (tickStep (tickIter m k)).progress.percent = _
      rw [tickStep, if_pos hone]
      have h14 : (1 : ℚ) ≤ ((k : ℚ) + 1) / 4 := by
        rw [le_div_iff₀ (by norm_num)]
        have : (4 : ℚ) ≤ (k : ℚ) := by exact_mod_cast hk
        linarith
      push_cast
      rw [min_eq_left h14]
      simpa using hone

theorem tickIter_percent_eq_one_iff (m : model) (h0 : m.progress.percent = 0) (k : Nat) :
    (tickIter m k).progress.percent = 1 ↔ 4 ≤ k := by
  rw [tickIter_percent m h0 k]
  constructor
  · intro h
    by_contra hlt
    push_neg at hlt
    have hx : ((k : ℚ)) / 4 < 1 := by
      rw [div_lt_one (by norm_num)]
      exact_mod_cast hlt
    rw [min_eq_right hx.le] at h
    rw [h] at hx
    exact lt_irrefl 1 hx
  · intro h
    refine min_eq_left ?_
    rw [le_div_iff₀ (by norm_num)]
    have : (4 : ℚ) ≤ (k : ℚ) := by exact_mod_cast h
    linarith

theorem tickIter_flags (m : model) (h0 : m.progress.percent = 0)
    (hl : m.loading = true) (hd : m.loaded = false) :
    ∀ n, ((tickIter m n).loaded = true ↔ 5 ≤ n) ∧ ((tickIter m n).loading = true ↔ n < 5) := by
  intro n
  induction n with
  | zero => simp [tickIter, hd, hl]
  | succ k ih =>
    rcases Nat.lt_or_ge k 4 with hk | hk
    · have hne : ¬ (tickIter m k).progress.percent = 1 := by
        rw [tickIter_percent_eq_one_iff m h0 k]
        omega
      show ((tickStep (tickIter m k)).loaded = true ↔ _) ∧
        ((tickStep (tickIter m k)).loading = true ↔ _)
      rw [tickStep, if_neg hne]
      constructor
      · show ((tickIter m k).loaded = true ↔ _)
        rw [ih.1]
        omega
      · show ((tickIter m k).loading = true ↔ _)
        rw [ih.2]
        omega
    · have hone : (tickIter m k).progress.percent = 1 :=
        (tickIter_percent_eq_one_iff m h0 k).mpr hk
      show ((tickStep (tickIter m k)).loaded = true ↔ _) ∧
        ((tickStep (tickIter m k)).loading = true ↔ _)
      rw [tickStep, if_pos hone]
      constructor
      · show (true = true ↔ _)
        simp
        omega
      · show (false = true ↔ _)
        simp
        omega

/-! ## Concrete states used by counterexamples and witnesses -/

/-- A session right after a failed fetch on the Projects page:
`errMsg` handling has set the error text and marked the page loaded. -/
def errStuckModel : model :=
  { initialModel with
      page := "Projects", loaded := true,
      errorMsg := "failed to fetch repositories: 404 Not Found" }

/-- Concrete renderer configuration for evaluating `view` on examples:
every style function is the identity, widget views render nothing. -/
def idRenderers : renderers :=
  { boldTitle := id, app := id, controls := id, baseTable := id
    progressView := fun _ => "", listView := fun _ => "", tableView := fun _ => "" }

/-- Concrete renderer configuration for the part 000 renderer. -/
def idRenderers000 : renderers000 :=
  { splashMain := id, splashContainer := id, splashName := id, splashTitle := id
    nameArt := ""
    headerContainer := id, nameHdr := id, jobHdr := id, headerSpacer := " "
    footerContainer := id, clockStyle := id, timerStyle := id, footerSpacer := " "
    mainBox := id, innerBox := id, pageTitle := id, menuStyle := id
    controlsMenu := id, loadingStyle := id, controlsPage := id, contentStyle := id
    baseTable := id
    progressView := fun _ => "", listView := fun _ => "", tableView := fun _ => ""
    stopwatchView := fun _ => "0s" }

/-- The part 000 session on the menu after the splash has been dismissed. -/
def menuModel000 : model000 :=
  { initialModel000 with showSplash := false }

/-- A loading page entry state (what `Update` produces when selecting a
non-Projects section from the menu). -/
def loadingEntryModel : model :=
  { initialModel with loading := true, page := "About Me" }

/-- A loaded Projects page with one fetched repository entry. -/
def projLoadedModel : model :=
  { initialModel with
      page := "Projects", loaded := true,
      reposList :=
        { items := [{ title := "cli_portfolio", description := "Terminal portfolio",
                      url := "https://github.com/mhommet/cli_portfolio" }],
          index := 0, width := 80, height := 20 } }

/-- A loaded Projects page whose repository list is empty. -/
def projEmptyModel : model :=
  { initialModel with page := "Projects", loaded := true }

/-! ## Claims -/

/-- C1: For every sequence of "move" (up/down, k/j) events applied while the
page is Menu, the `cursorIndex` stays within `[0, sectionCount-1]`; an up
move on cursor 0 and a down move on cursor `sectionCount-1` leave the cursor
unchanged (no wraparound). -/
theorem menu_move_cursor_clamped :
    (∀ (ks : List String) (m : model), (∀ s ∈ ks, isMoveKey s) → m.page = "menu" →
      0 ≤ m.cursor → m.cursor < (m.sections.length : Int) →
      ∃ m', applyKeys m ks = some m' ∧ m'.page = "menu" ∧ m'.sections = m.sections ∧
        0 ≤ m'.cursor ∧ m'.cursor < (m.sections.length : Int)) ∧
    (∀ (m : model) (s : String), m.page = "menu" → m.cursor = 0 → (s = "up" ∨ s = "k") →
      m.update (.keyMsg s) = some (m, Cmd.none)) ∧
    (∀ (m : model) (s : String), m.page = "menu" →
      m.cursor = (m.sections.length : Int) - 1 → (s = "down" ∨ s = "j") →
      m.update (.keyMsg s) = some (m, Cmd.none)) := by
  refine ⟨?_, ?_, ?_⟩
  · intro ks
    induction ks with
    | nil =>
      intro m _ hp h0 h1
      exact ⟨m, rfl, hp, rfl, h0, h1⟩
    | cons s rest ih =>
      intro m hks hp h0 h1
      obtain ⟨m1, hupd, hp1, hsec1, h01, h11⟩ :=
        moveKey_step m s (hks s (by simp)) hp h0 h1
      have hrest : ∀ x ∈ rest, isMoveKey x := fun x hx => hks x (by simp [hx])
      obtain ⟨m', happ, hp', hsec', h0', h1'⟩ :=
        ih m1 hrest hp1 h01 (by rw [hsec1]; exact h11)
      refine ⟨m', ?_, hp', by rw [hsec', hsec1], h0', by rw [← hsec1]; exact h1'⟩
      simp only [applyKeys, hupd]
      exact happ
  · intro m s hp hc hs
    rcases hs with rfl | rfl
    · simp [model.update, hp, hc, afterKeySwitchM]
    · simp [model.update, hp, hc, afterKeySwitchM]
  · intro m s hp hc hs
    rcases hs with rfl | rfl
    · simp [model.update, hp, hc, afterKeySwitchM]
    · simp [model.update, hp, hc, afterKeySwitchM]

theorem menu_move_cursor_clamped_witness :
    ∃ m', applyKeys initialModel ["down", "j", "down", "up", "k", "up", "up"] = some m' ∧
      m'.page = "menu" ∧ m'.sections = initialModel.sections ∧
      0 ≤ m'.cursor ∧ m'.cursor < (initialModel.sections.length : Int) :=
  menu_move_cursor_clamped.1 ["down", "j", "down", "up", "k", "up", "up"] initialModel
    (by decide) rfl (by decide) (by decide)

/-- C2 (counterexample): after a fetch failure has set `errorMsg`, a "back"
event does NOT clear the error: the session returns to the menu with cursor
0, but `errorMsg` is untouched and the renderer keeps showing the error
banner instead of the menu. -/
theorem back_keeps_error_cex :
    errStuckModel.update (.keyMsg "b") =
      some ({ errStuckModel with page := "menu", cursor := 0, loaded := false }, Cmd.none) ∧
    ({ errStuckModel with page := "menu", cursor := 0, loaded := false } : model).errorMsg =
      "failed to fetch repositories: 404 Not Found" ∧
    ({ errStuckModel with page := "menu", cursor := 0, loaded := false } : model).view
        idRenderers "12:00:00" =
      "Welcome to my portfolio - Milan Hommet\n\nError: failed to fetch repositories: 404 Not Found\n" :=
  ⟨rfl, rfl, rfl⟩

/-- C2 (amended): a "back" event from any non-menu page returns to the menu
with cursor 0 and clears `loaded`, but `errorMsg` is not cleared: no code
path resets it, so the error banner continues to render. -/
theorem back_returns_menu_keeps_error (m : model) (hp : m.page ≠ "menu") :
    m.update (.keyMsg "b") =
      some ({ m with page := "menu", cursor := 0, loaded := false }, Cmd.none) ∧
    ({ m with page := "menu", cursor := 0, loaded := false } : model).errorMsg = m.errorMsg := by
  constructor
  · simp [model.update, hp, afterKeySwitchM]
  · rfl

theorem back_returns_menu_keeps_error_witness :
    errStuckModel.update (.keyMsg "b") =
      some ({ errStuckModel with page := "menu", cursor := 0, loaded := false }, Cmd.none) ∧
    ({ errStuckModel with page := "menu", cursor := 0, loaded := false } : model).errorMsg =
      errStuckModel.errorMsg :=
  back_returns_menu_keeps_error errStuckModel (by decide)

set_option maxRecDepth 100000 in
/-- C3 (counterexample): the part 000 renderer is NOT a function of the
session alone: its footer renders the wall clock (part 000 line 515), so the
same model rendered at two clock instants yields different frames. -/
theorem view_variant_clock_dependent_cex :
    menuModel000.view idRenderers000 "12:00:00" ≠ menuModel000.view idRenderers000 "12:00:01" := by
  decide

/-- C3 (amended): the main.go renderer is a pure, deterministic function of
the session and the fixed style configuration: rendering the same model at
any two wall-clock instants produces identical output.  (The part 000
variant's renderer additionally reads the wall clock, see the
counterexample.) -/
theorem view_deterministic_of_session (m : model) (R : renderers) (c1 c2 : String) :
    m.view R c1 = m.view R c2 := rfl

/-- C4: every fetch failure — transport error, non-2xx status, or malformed
body — yields a single `errMsg` message whose handling stores a non-empty
error string, sets `loading := false`, `loaded := true`, and returns no
quit command. -/
theorem fetch_failure_nonfatal (r : fetchInput) (hf : r.fails = true) (hn : r.causeNonempty) :
    ∃ e, fetchGitHubRepos r = .errMsg e ∧ e ≠ "" ∧
      ∀ m : model, m.update (.errMsg e) =
        some ({ m with errorMsg := e, loading := false, loaded := true }, Cmd.none) := by
  have hupd : ∀ (e : String) (m : model), m.update (.errMsg e) =
      some ({ m with errorMsg := e, loading := false, loaded := true }, Cmd.none) := by
    intro e m
    simp [model.update]
  match r with
  | .transportError e => exact ⟨e, rfl, hn, hupd e⟩
  | .httpResponse code status body =>
    by_cases hc : code = 200
    · subst hc
      match body with
      | .error e =>
        refine ⟨e, ?_, hn, hupd e⟩
        simp [fetchGitHubRepos]
      | .ok repos => simp [fetchInput.fails] at hf
    · refine ⟨"failed to fetch repositories: " ++ status, ?_, ?_, hupd _⟩
      · simp [fetchGitHubRepos, hc]
      · intro hcontra
        have hlen := congrArg String.length hcontra
        rw [String.length_append] at hlen
        simp at hlen
        exact absurd hlen.1 (by decide)

theorem fetch_failure_nonfatal_witness :
    (fetchInput.httpResponse 404 "404 Not Found" (.ok [])).fails = true ∧
    ∃ e, fetchGitHubRepos (.httpResponse 404 "404 Not Found" (.ok [])) = .errMsg e ∧ e ≠ "" ∧
      ∀ m : model, m.update (.errMsg e) =
        some ({ m with errorMsg := e, loading := false, loaded := true }, Cmd.none) :=
  ⟨by decide, fetch_failure_nonfatal (.httpResponse 404 "404 Not Found" (.ok [])) (by decide)
    (by trivial)⟩

/-- C5: a "select" (enter) event on the menu: on the "Exit" entry (cursor 6)
the program quits; on any other entry the session moves to that page with
`loading := true`, `loaded := false` and a fresh progress bar, and the
returned command is the asynchronous fetch exactly for "Projects"
(cursor 4), otherwise the simulated progress tick. -/
theorem menu_select_transition (m : model) (hp : m.page = "menu")
    (hs : m.sections = initialModel.sections) :
    (m.cursor = 6 → m.update (.keyMsg "enter") = some (m, Cmd.quit)) ∧
    (∀ k : Nat, k < 6 → m.cursor = (k : Int) →
      m.update (.keyMsg "enter") =
        some ({ m with
                  loading := true, page := initialModel.sections.getD k "",
                  loaded := false, progress := progressNew },
              if initialModel.sections.getD k "" = "Projects" then Cmd.fetchRepos
              else Cmd.tick) ∧
      (initialModel.sections.getD k "" = "Projects" ↔ k = 4)) := by
  obtain ⟨cur, secs, ld, pr, pg, lded, rl, st, em⟩ := m
  simp only [initialModel] at hs
  dsimp at hp hs ⊢
  subst hp hs
  constructor
  · intro hc
    subst hc
    rfl
  · intro k hk hc
    subst hc
    interval_cases k <;> exact ⟨rfl, by decide⟩

theorem menu_select_transition_witness :
    ({ initialModel with cursor := 4 } : model).update (.keyMsg "enter") =
      some ({ initialModel with
                cursor := 4, loading := true, page := "Projects",
                loaded := false, progress := progressNew },
            Cmd.fetchRepos) := by
  have h := (menu_select_transition { initialModel with cursor := 4 } rfl rfl).2 4
    (by decide) rfl
  exact h.1

/-- C6: from a page-entry state (progress 0, loading, not loaded), the
progress value across timer ticks follows `min 1 (n/4)`: it is monotonically
non-decreasing and never exceeds 1, and the loaded/loading flags flip
exactly at the tick after the percentage has reached 1 (`n = 5`), staying
flipped afterwards.  The first conjunct grounds the iteration in `Update`. -/
theorem progress_monotone_loads_once (m : model) (h0 : m.progress.percent = 0)
    (hl : m.loading = true) (hd : m.loaded = false) :
    (∀ n, (tickIter m n).update .tickMsg =
      some (tickIter m (n + 1),
            if (tickIter m n).progress.percent = 1 then Cmd.none
            else Cmd.batch2 Cmd.tick Cmd.frame)) ∧
    (∀ n, (tickIter m n).progress.percent = min 1 ((n : ℚ) / 4)) ∧
    (∀ n, (tickIter m n).progress.percent ≤ (tickIter m (n + 1)).progress.percent) ∧
    (∀ n, (tickIter m n).progress.percent ≤ 1) ∧
    (∀ n, ((tickIter m n).loaded = true ↔ 5 ≤ n) ∧ ((tickIter m n).loading = true ↔ n < 5)) := by
  refine ⟨fun n => update_tick_eq (tickIter m n), tickIter_percent m h0, ?_, ?_,
    tickIter_flags m h0 hl hd⟩
  · intro n
    rw [tickIter_percent m h0 n, tickIter_percent m h0 (n + 1)]
    refine min_le_min le_rfl ?_
    push_cast
    linarith
  · intro n
    rw [tickIter_percent m h0 n]
    exact min_le_left _ _

theorem progress_monotone_loads_once_witness :
    ((tickIter loadingEntryModel 5).loaded = true ↔ 5 ≤ 5) ∧
    ((tickIter loadingEntryModel 5).loading = true ↔ 5 < 5) :=
  (progress_monotone_loads_once loadingEntryModel rfl rfl rfl).2.2.2.2 5

/-- C7: a successful fetch delivering N records populates exactly N entries
preserving server order (each record mapped name/description/html_url), sets
the page loaded, and — once loaded — an enter event on the selected entry
issues exactly one browser-launch command with that entry's URL. -/
theorem fetch_success_populates_and_opens :
    (∀ (repos : List githubRepo) (m : model),
      m.update (.repoMsg repos) =
        some ({ m with
                  reposList := m.reposList.setItems (repoItems repos),
                  loading := false, loaded := true },
              Cmd.statusMessage "Press Enter to open selected project in browser")) ∧
    (∀ repos : List githubRepo, (repoItems repos).length = repos.length) ∧
    (∀ (repos : List githubRepo) (i : Nat),
      (repoItems repos)[i]? = (repos[i]?).map fun r =>
        ({ title := r.name, description := r.description, url := r.htmlURL } : item)) ∧
    (∀ (m : model) (i : Nat) (it : item), m.page = "Projects" → m.loaded = true →
      m.reposList.index = i → m.reposList.items[i]? = some it → it.url ≠ "" →
      m.update (.keyMsg "enter") = some (m, Cmd.openURL it.url)) := by
  refine ⟨?_, ?_, ?_, ?_⟩
  · intro repos m
    simp [model.update]
  · intro repos
    simp [repoItems]
  · intro repos i
    simp [repoItems]
  · intro m i it hp hl hi hit hu
    have hlt : i < m.reposList.items.length := by
      by_contra hge
      push_neg at hge
      rw [List.getElem?_eq_none hge] at hit
      cases hit
    have hlen : 0 < m.reposList.items.length := by omega
    have hsel : m.reposList.selectedItem? = some it := by
      rw [listModel.selectedItem?, hi]
      exact hit
    simp [model.update, hp, hl, hlen, hsel, hu]

theorem fetch_success_populates_and_opens_witness :
    projLoadedModel.update (.keyMsg "enter") =
      some (projLoadedModel, Cmd.openURL "https://github.com/mhommet/cli_portfolio") :=
  fetch_success_populates_and_opens.2.2.2 projLoadedModel 0
    { title := "cli_portfolio", description := "Terminal portfolio",
      url := "https://github.com/mhommet/cli_portfolio" }
    rfl rfl rfl rfl (by decide)

/-- C8 (counterexample): in the part 000 variant, while the splash screen is
showing, a "q" keypress does NOT quit: it merely dismisses the splash and
returns no quit command.  The initial state shows the splash. -/
theorem quit_during_splash_cex :
    initialModel000.showSplash = true ∧
    initialModel000.update (.keyMsg "q") =
      some ({ initialModel000 with showSplash := false }, Cmd.none) ∧
    Cmd.none ≠ Cmd.quit :=
  ⟨rfl, rfl, by decide⟩

/-- C8 (amended): in main.go a "q" keypress quits from every state,
independent of page, loading flag or any other session state; in the part
000 variant it quits from every state in which the splash screen is not
showing (while the splash shows, it only dismisses the splash — see the
counterexample). -/
theorem quit_always_quits_outside_splash :
    (∀ m : model, m.update (.keyMsg "q") = some (m, Cmd.quit)) ∧
    (∀ m : model000, m.showSplash = false → m.update (.keyMsg "q") = some (m, Cmd.quit)) := by
  constructor
  · intro m
    rfl
  · intro m h
    simp [model000.update, h]

theorem quit_always_quits_outside_splash_witness :
    menuModel000.update (.keyMsg "q") = some (menuModel000, Cmd.quit) :=
  quit_always_quits_outside_splash.2 menuModel000 rfl

/-- C9: `loaded` implies `loading = false` holds in the initial state and is
preserved by every message `Update` handles. -/
theorem loaded_implies_not_loading_invariant :
    (initialModel.loaded = true → initialModel.loading = false) ∧
    (∀ (m m' : model) (msg : Msg) (c : Cmd),
      (m.loaded = true → m.loading = false) →
      m.update msg = some (m', c) →
      (m'.loaded = true → m'.loading = false)) := by
  constructor
  · intro _
    rfl
  · intro m m' msg c hinv hup h'
    rcases update_flags m m' msg c hup with ⟨hl, hd⟩ | hfalse | hdone
    · rw [hl]
      exact hinv (hd ▸ h')
    · rw [hfalse] at h'
      cases h'
    · exact hdone

theorem loaded_implies_not_loading_invariant_witness :
    ({ initialModel with errorMsg := "boom", loading := false, loaded := true } : model).loading
      = false :=
  loaded_implies_not_loading_invariant.2 initialModel
    { initialModel with errorMsg := "boom", loading := false, loaded := true }
    (.errMsg "boom") Cmd.none (fun h => by cases h) rfl rfl

/-- C10: on the loaded Projects page, an enter event with an empty repository
list, or with a selected entry whose URL is empty, leaves the session
unchanged and issues no browser-launch command; and with the list cursor in
range (the list widget's invariant) the selected-item lookup behind the Go
type assertion cannot fail, so `Update` cannot panic in that branch. -/
theorem projects_enter_guarded (m : model) (hp : m.page = "Projects") (hl : m.loaded = true) :
    (m.reposList.items = [] → m.update (.keyMsg "enter") = some (m, Cmd.none)) ∧
    (∀ it : item, m.reposList.selectedItem? = some it → it.url = "" →
      m.update (.keyMsg "enter") = some (m, Cmd.none)) ∧
    (m.reposList.index < m.reposList.items.length →
      (m.reposList.selectedItem?).isSome = true ∧ m.update (.keyMsg "enter") ≠ none) := by
  obtain ⟨cur, secs, ld, pr, pg, lded, rl, st, em⟩ := m
  dsimp at hp hl ⊢
  subst hp hl
  refine ⟨?_, ?_, ?_⟩
  · intro he
    have hlen : ¬ 0 < rl.items.length := by simp [he]
    simp [model.update, hlen, afterKeySwitchM, listUpdateKey]
  · intro it hsel hu
    have hlt : rl.index < rl.items.length := by
      by_contra hge
      push_neg at hge
      rw [listModel.selectedItem?, List.getElem?_eq_none hge] at hsel
      cases hsel
    have hlen : 0 < rl.items.length := by omega
    simp [model.update, hlen, hsel, hu, afterKeySwitchM, listUpdateKey]
  · intro hlt
    have hlen : 0 < rl.items.length := by omega
    obtain ⟨it, hit⟩ : ∃ it, rl.items[rl.index]? = some it :=
      ⟨rl.items[rl.index], List.getElem?_eq_getElem hlt⟩
    have hsel : rl.selectedItem? = some it := hit
    constructor
    · simp [listModel.selectedItem?, hlt]
    · by_cases hu : it.url = ""
      · simp [model.update, hlen, hsel, hu, afterKeySwitchM, listUpdateKey]
      · simp [model.update, hlen, hsel, hu]

theorem projects_enter_guarded_witness :
    projEmptyModel.update (.keyMsg "enter") = some (projEmptyModel, Cmd.none) :=
  (projects_enter_guarded projEmptyModel rfl rfl).1 rfl

end CliPortfolio
